import Mathlib

/-!
Verification of the VoxelBotUtils paginator and error handler.

Shallow embedding of `voxelbotutils/cogs/utils/paginator.py` (class
`Paginator`: `__init__`, `get_page`, `start`) and
`voxelbotutils/cogs/error_handler.py` (`ErrorHandler.on_command_error`,
`send_to_ctx_or_author`, `COMMAND_ERROR_RESPONSES`).

Python-level behaviour (dynamic typing, exceptions, slicing with negative
indices, dict truthiness) is modelled explicitly:

* Machine exceptions are values of `PyExc`; fallible operations return
  `Except PyExc _` or pair their result with an `Option PyExc`.
* `max_pages` is an `Int` or the string `"?"` (`MaxPages.unknown`);
  comparing `"?"` with an integer via `<`/`>`/`>=` raises `TypeError`
  in Python 3, while `==` simply returns `False`.  This is embedded in
  `maxPagesEqInt` / `maxPagesGtOne` / `clampCand`.
* `data[a:b]` on a list follows Python slice normalisation, including
  negative indices wrapping from the end (`pySlice`).
* In `get_page`, the source dispatches on the kind of `self.data`:
  the branch for *async* generators calls `next(self.data)` (the
  synchronous protocol, which raises `TypeError` on an async generator),
  and the branch for *sync* generators awaits `self.data.__anext__()`
  (async protocol; a sync generator has no `__anext__`, so attribute
  lookup raises `AttributeError`).  Neither exception is caught by the
  `except (StopIteration, StopAsyncIteration)` clause, so the handler
  that would set `max_pages` is unreachable; were it reached, `return v`
  would raise `UnboundLocalError` because the local `v` is only assigned
  by a *successful* pull.
-/

/-- Python exceptions that the embedded code can raise. -/
inductive PyExc where
  | typeError
  | attributeError
  | unboundLocalError
  | zeroDivisionError
  | valueError
  deriving DecidableEq, Repr

/-- The data source handed to `Paginator.__init__`: a finite sequence, a
synchronous generator, or an asynchronous generator.  For the generator
kinds we record the batches the generator would yield (one list of items
per pull) even though the code under verification never succeeds in
pulling from them. -/
inductive DataSource (α : Type) where
  | sequential (items : List α)
  | syncGen (batches : List (List α))
  | asyncGen (batches : List (List α))
  deriving DecidableEq, Repr

/-- `self.max_pages`: an integer, or the string `"?"` used as the initial
sentinel for generator sources. -/
inductive MaxPages where
  | num (n : Int)
  | unknown
  deriving DecidableEq, Repr

/-- Python `max_pages == k` for an integer literal `k`: comparing the
string `"?"` with an int by `==` is `False` (no exception). -/
def maxPagesEqInt : MaxPages → Int → Bool
  | MaxPages.num n, k => n = k
  | MaxPages.unknown, _ => false

/-- Python `max_pages > 1`: comparing the string `"?"` with an int by
`>` raises `TypeError`. -/
def maxPagesGtOne : MaxPages → Except PyExc Bool
  | MaxPages.num n => Except.ok (1 < n)
  | MaxPages.unknown => Except.error PyExc.typeError

/-- State of a `Paginator` instance (`self.data`, `self.per_page`,
`self.current_page`, `self._page_cache`, `self.max_pages`).  The
formatter is not part of the state here; it is supplied to the run
functions directly (the source stores it on the instance at
construction and never replaces it). -/
structure PaginatorState (α : Type) where
  data : DataSource α
  per_page : Int
  current_page : Option Int
  page_cache : List (Int × List α)
  max_pages : MaxPages
  deriving DecidableEq, Repr

/-- `page_number in self._page_cache` / `self._page_cache[page_number]`. -/
def cacheGet {α : Type} : List (Int × List α) → Int → Option (List α)
  | [], _ => none
  | (k, v) :: rest, n => if k = n then some v else cacheGet rest n

/-- Normalise one Python slice bound against a list of length `L`:
negative indices count from the end, then the bound is clamped into
`[0, L]`. -/
def pyIndex (L : Nat) (i : Int) : Nat :=
  if i < 0 then (max ((L : Int) + i) 0).toNat else min i.toNat L

/-- Python `l[a:b]` (step 1) on a list. -/
def pySlice {α : Type} (l : List α) (a b : Int) : List α :=
  (l.take (pyIndex l.length b)).drop (pyIndex l.length a)

/-- `Paginator.__init__(data, per_page=...)`.  For a non-generator
source, `divmod(len(data), per_page)` computes the page count (raising
`ZeroDivisionError` when `per_page == 0`; Python `divmod` floors, which
is `Int.fdiv`/`Int.fmod`); generator sources leave `max_pages` as the
sentinel `"?"`.  `current_page` starts as `None` and the cache empty. -/
def mkPaginator {α : Type} (data : DataSource α) (per_page : Int) :
    Except PyExc (PaginatorState α) :=
  match data with
  | DataSource.sequential items =>
      if per_page = 0 then Except.error PyExc.zeroDivisionError
      else
        let L : Int := items.length
        let pages := L.fdiv per_page
        let leftOver := L.fmod per_page
        Except.ok
          { data := data, per_page := per_page, current_page := none,
            page_cache := [],
            max_pages := MaxPages.num (if leftOver ≠ 0 then pages + 1 else pages) }
  | _ =>
      Except.ok
        { data := data, per_page := per_page, current_page := none,
          page_cache := [], max_pages := MaxPages.unknown }

/-- `Paginator.get_page(page_number)`.  Returns the Python result (value
or raised exception), the post-call state, and the number of successful
pulls/slices taken from the underlying source during this call.

Faithful to the source:
* a cached page is returned as-is, touching nothing;
* an async-generator source hits `v = next(self.data)`, raising
  `TypeError` (an async generator is not an iterator);
* a sync-generator source hits `v = await self.data.__anext__()`,
  raising `AttributeError` (a generator has no `__anext__`);
* a sequence source takes the slice
  `data[page_number*per_page : (page_number+1)*per_page]` and caches it.
The `except (StopIteration, StopAsyncIteration)` handler (which would
set `max_pages = page_number` and `return v`) is unreachable because the
two generator branches raise before any `StopIteration` can occur. -/
def get_page {α : Type} (st : PaginatorState α) (page_number : Int) :
    Except PyExc (List α) × PaginatorState α × Nat :=
  match cacheGet st.page_cache page_number with
  | some v => (Except.ok v, st, 0)
  | none =>
      match st.data with
      | DataSource.asyncGen _ => (Except.error PyExc.typeError, st, 0)
      | DataSource.syncGen _ => (Except.error PyExc.attributeError, st, 0)
      | DataSource.sequential items =>
          let v := pySlice items (page_number * st.per_page)
            ((page_number + 1) * st.per_page)
          (Except.ok v, { st with page_cache := (page_number, v) :: st.page_cache }, 1)

/-! ## The interactive session (`Paginator.start`) -/

/-- The five navigation emoji reactions attached by `start`. -/
inductive Emoji where
  | firstPage   -- BLACK LEFT-POINTING DOUBLE TRIANGLE
  | prevPage    -- LEFTWARDS BLACK ARROW
  | stop        -- BLACK SQUARE FOR STOP
  | nextPage    -- BLACK RIGHTWARDS ARROW
  | lastPage    -- BLACK RIGHT-POINTING DOUBLE TRIANGLE
  deriving DecidableEq, Repr

/-- One outcome of the `asyncio.wait` on the two `wait_for` calls: either
a matching reaction add/remove event (the check already restricts to the
five emojis, the invoking user and this message), or a timeout (on which
`asyncio.wait` returns an empty `done` set and the loop breaks). -/
inductive Event where
  | reaction (e : Emoji)
  | timeout
  deriving DecidableEq, Repr

/-- What the formatter returns: a string, an embed (abstracted to an
opaque identifier), or a kwargs dict holding optional `content`/`embed`
entries (entries absent from the dict are filled with `None` by the
`setdefault` calls, so they are represented the same way as explicit
`None`). -/
inductive FmtOut where
  | str (s : String)
  | embed (e : Nat)
  | dict (content : Option String) (embed : Option Nat)
  deriving DecidableEq, Repr

/-- The normalised payload passed to `message.edit`: the `content` and
`embed` kwargs after the two `setdefault(..., None)` calls. -/
structure Payload where
  content : Option String
  embed : Option Nat
  deriving DecidableEq, Repr

/-- Normalisation of the formatter output performed in `start`
(wrap an `Embed` as `{"embed": ...}`, a string as `{"content": ...}`,
then `setdefault` both keys to `None`). -/
def normalizePayload : FmtOut → Payload
  | FmtOut.str s => { content := some s, embed := none }
  | FmtOut.embed e => { content := none, embed := some e }
  | FmtOut.dict c e => { content := c, embed := e }

/-- A reaction-derived candidate page: the value produced by the emoji
lookup table applied to `current_page`.  `stopNav` is Python `None`
(the stop emoji); `qmark` is the string `"?"`, which the last-page
lambda returns verbatim when `max_pages` is still the sentinel. -/
inductive Cand where
  | stopNav
  | page (i : Int)
  | qmark
  deriving DecidableEq, Repr

/-- The emoji-to-transform lookup table applied to the current page
`i` (`{...}[str(payload.emoji)](self.current_page)`).  Note the
last-page entry returns `self.max_pages` itself, one past the final
valid index (or the string `"?"` for generator sources). -/
def applyEmoji (e : Emoji) (i : Int) (mp : MaxPages) : Cand :=
  match e with
  | Emoji.firstPage => Cand.page 0
  | Emoji.prevPage => Cand.page (i - 1)
  | Emoji.stop => Cand.stopNav
  | Emoji.nextPage => Cand.page (i + 1)
  | Emoji.lastPage =>
      match mp with
      | MaxPages.num n => Cand.page n
      | MaxPages.unknown => Cand.qmark

/-- The boundary clamp (`if self.current_page >= self.max_pages: ...
elif self.current_page < 0: ...`), with Python's comparison semantics:
comparing an int with the string `"?"` (either side) raises
`TypeError`; comparing `"?" >= "?"` is `True` but then
`self.max_pages - 1` is `"?" - 1`, again `TypeError`; comparing `None`
with an int raises `TypeError` (unreachable: the `None` candidate
breaks out of the loop before the clamp). -/
def clampCand : Cand → MaxPages → Except PyExc Int
  | Cand.page c, MaxPages.num m =>
      Except.ok (if c ≥ m then m - 1 else if c < 0 then 0 else c)
  | Cand.page _, MaxPages.unknown => Except.error PyExc.typeError
  | Cand.qmark, _ => Except.error PyExc.typeError
  | Cand.stopNav, _ => Except.error PyExc.typeError

/-- Observable effects of a session, in order.  `navClamped i mp`
instruments the state transition at the end of one loop iteration: the
clamped `current_page` value `i` that was stored, together with the
`max_pages` in force at that moment.  `clearReactions` marks the
`message.clear_reactions()` attempt made when the loop breaks. -/
inductive Effect where
  | sendNoData                            -- ctx.send("There's no data to be shown.")
  | sendPlaceholder                       -- ctx.send("Menu loading...")
  | addReaction (e : Emoji)               -- message.add_reaction(e)
  | editMessage (p : Payload)             -- message.edit(**payload)
  | navClamped (i : Int) (mp : MaxPages)
  | clearReactions                        -- message.clear_reactions()
  deriving DecidableEq, Repr

/-- The `try: await message.clear_reactions() except discord.Exception:
pass` epilogue.  When `clear_reactions` fails, Python evaluates the
handler's exception expression `discord.Exception`; the `discord`
module defines no attribute `Exception` (its exception base class is
`DiscordException`), so the lookup raises `AttributeError`, which
propagates out of `start` in place of the original failure.  `clearFails`
says whether the message sink rejects the call (message deleted,
permissions revoked, ...). -/
def cleanupFx (clearFails : Bool) : List Effect × Option PyExc :=
  ([Effect.clearReactions], if clearFails then some PyExc.attributeError else none)

/-- The top of one `while True:` iteration: fetch the current page via
`get_page`, run the formatter, normalise the payload, and edit the
message when the payload differs from `last_payload`.  Returns the
emitted effects and the post-`get_page` state, or the exception
`get_page` raised.  Faithful to the source, including line 95's
`payload = last_payload`, which overwrites the *local* `payload` instead
of updating `last_payload`: the caller keeps passing `last_payload`
along unchanged, so it remains `None` forever and the
`payload != last_payload` test always succeeds. -/
def renderEdit {α : Type} (fmt : PaginatorState α → List α → FmtOut)
    (st : PaginatorState α) (lastPayload : Option Payload) :
    Except PyExc (List Effect × PaginatorState α) :=
  match get_page st (st.current_page.getD 0) with
  | (Except.error e, _, _) => Except.error e
  | (Except.ok items, st', _) =>
      let payload := normalizePayload (fmt st' items)
      Except.ok
        (if some payload ≠ lastPayload then [Effect.editMessage payload] else [],
          st')

/-- The `while True:` body of `start`, driven by the (already matching)
events the waits produce; the recursion consumes one event per
iteration.  Every iteration starts with `renderEdit`; then
`if self.max_pages == 1: return` (no cleanup); then the wait: no event
left or a timeout breaks to the cleanup, a reaction is put through the
emoji lookup table, a `None` candidate breaks to the cleanup, any other
candidate goes through the boundary clamp (whose `TypeError`
propagates) and becomes the new `current_page`.  An exception anywhere
propagates out of `start`, keeping the effects emitted so far. -/
def runLoop {α : Type}
    (fmt : PaginatorState α → List α → FmtOut) (clearFails : Bool) :
    List Event → PaginatorState α → Option Payload → List Effect × Option PyExc
  | [], st, lastPayload =>
      match renderEdit fmt st lastPayload with
      | Except.error e => ([], some e)
      | Except.ok (editFx, st') =>
          if maxPagesEqInt st'.max_pages 1 then (editFx, none)
          else (editFx ++ (cleanupFx clearFails).1, (cleanupFx clearFails).2)
  | Event.timeout :: _, st, lastPayload =>
      match renderEdit fmt st lastPayload with
      | Except.error e => ([], some e)
      | Except.ok (editFx, st') =>
          if maxPagesEqInt st'.max_pages 1 then (editFx, none)
          else (editFx ++ (cleanupFx clearFails).1, (cleanupFx clearFails).2)
  | Event.reaction em :: rest, st, lastPayload =>
      match renderEdit fmt st lastPayload with
      | Except.error e => ([], some e)
      | Except.ok (editFx, st') =>
          if maxPagesEqInt st'.max_pages 1 then (editFx, none)
          else
            match applyEmoji em (st'.current_page.getD 0) st'.max_pages with
            | Cand.stopNav =>
                (editFx ++ (cleanupFx clearFails).1, (cleanupFx clearFails).2)
            | c =>
                match clampCand c st'.max_pages with
                | Except.error e => (editFx, some e)
                | Except.ok j =>
                    let next :=
                      runLoop fmt clearFails rest
                        { st' with current_page := some j } lastPayload
                    (editFx ++ Effect.navClamped j st'.max_pages :: next.1, next.2)

/-- `Paginator.start(ctx, timeout=...)`.  Sets `current_page = 0`; if
`max_pages == 0` sends the "no data" notice and returns; otherwise
sends the placeholder, adds the five navigation reactions when
`max_pages > 1` (for a generator source this comparison is `"?" > 1`,
raising `TypeError` immediately), and enters the render/wait loop with
`last_payload = None`. -/
def startRun {α : Type} (st0 : PaginatorState α)
    (fmt : PaginatorState α → List α → FmtOut) (events : List Event)
    (clearFails : Bool) : List Effect × Option PyExc :=
  let st : PaginatorState α := { st0 with current_page := some 0 }
  if maxPagesEqInt st.max_pages 0 then ([Effect.sendNoData], none)
  else
    match maxPagesGtOne st.max_pages with
    | Except.error e => ([Effect.sendPlaceholder], some e)
    | Except.ok b =>
        let reactFx : List Effect :=
          if b then
            [Effect.addReaction Emoji.firstPage, Effect.addReaction Emoji.prevPage,
             Effect.addReaction Emoji.stop, Effect.addReaction Emoji.nextPage,
             Effect.addReaction Emoji.lastPage]
          else []
        let next := runLoop fmt clearFails events st none
        (Effect.sendPlaceholder :: reactFx ++ next.1, next.2)

/-! ## The error handler (`ErrorHandler.on_command_error`)

Exception classes from `discord.py` / `discord.ext.commands` and from
`voxelbotutils.cogs.utils.errors` are modelled as an enumeration with an
explicit subclass check: `discord.NotFound` and `discord.Forbidden` are
subclasses of `discord.HTTPException`; every class otherwise matches only
itself (no other subclass relation among the listed classes is relevant
to the dispatch order).  The formatters interpolate attributes of the
context and error into f-strings; the message *text* is abstracted to
fixed representative strings built from the error's attributes, while the
dispatch structure — which entry matches, and whether the formatter
returns `None`, a single string, or a pair — is modelled exactly. -/

/-- The exception classes that appear in the handler. -/
inductive ExcTy where
  | commandNotFound | invokedMetaCommand
  | missingRequiredArgumentString | missingRequiredArgument
  | unexpectedQuote | invalidEndOfQuotedString | expectedClosingQuote
  | commandOnCooldown | nsfwChannelRequired | disabledCommand
  | missingAnyRole | botMissingAnyRole | missingRole | botMissingRole
  | missingPermissions | botMissingPermissions
  | noPrivateMessage | privateMessageOnly | notOwner
  | badArgument | badUnionArgument | tooManyArguments
  | notFound | forbidden | httpException | clientOSError
  | otherError
  deriving DecidableEq, Repr

/-- `isinstance(error, cls)` for a single class: the class itself, plus
the `discord` hierarchy edges `NotFound <: HTTPException` and
`Forbidden <: HTTPException`. -/
def isSubclass (a b : ExcTy) : Bool :=
  a = b
  || (a = ExcTy.notFound && b = ExcTy.httpException)
  || (a = ExcTy.forbidden && b = ExcTy.httpException)

/-- `isinstance(error, tuple_of_classes)`. -/
def isInstanceAny (a : ExcTy) (bs : List ExcTy) : Bool :=
  bs.any (fun b => isSubclass a b)

/-- An error value: its class plus the attributes the formatters read,
abstracted to strings. -/
structure Err where
  ty : ExcTy
  text : String        -- str(error)
  param : String       -- error.param / error.param.name
  retryAfter : String  -- utils.TimeValue(error.retry_after).clean_spaced
  roles : String       -- the joined role list / missing role / permission
  status : String      -- error.status
  deriving DecidableEq, Repr

/-- A formatter's return value: `None`, a single message string, or a
`(channel message, owner DM message)` pair. -/
inductive ErrOutput where
  | noOutput
  | one (s : String)
  | two (s t : String)
  deriving DecidableEq, Repr

/-- Python truthiness of a formatter result (`if output:`): `None` and
the empty string are falsy; a (nonempty) tuple is truthy. -/
def errOutputTruthy : ErrOutput → Bool
  | ErrOutput.noOutput => false
  | ErrOutput.one s => !(s = "")
  | ErrOutput.two _ _ => true

/-- `ErrorHandler.COMMAND_ERROR_RESPONSES`: the ordered dispatch table.
Each entry pairs the tuple of classes with the formatter. -/
def COMMAND_ERROR_RESPONSES : List (List ExcTy × (Err → ErrOutput)) :=
  [ ([ExcTy.missingRequiredArgumentString],
      fun e => ErrOutput.one ("You're missing the `" ++ e.param ++ "` argument, which is required for this command.")),
    ([ExcTy.missingRequiredArgument],
      fun e => ErrOutput.one ("You're missing the `" ++ e.param ++ "` argument, which is required for this command.")),
    ([ExcTy.unexpectedQuote, ExcTy.invalidEndOfQuotedString, ExcTy.expectedClosingQuote],
      fun _ => ErrOutput.one "The quotes in your message have been done incorrectly."),
    ([ExcTy.commandOnCooldown],
      fun e => ErrOutput.one ("You can't use this command again for another " ++ e.retryAfter ++ ".")),
    ([ExcTy.nsfwChannelRequired],
      fun _ => ErrOutput.one "This command can't be run in a non-NSFW channel."),
    ([ExcTy.disabledCommand],
      fun _ => ErrOutput.one "This command has been disabled."),
    ([ExcTy.missingAnyRole],
      fun e => ErrOutput.one ("You need to have one of the " ++ e.roles ++ " roles to be able to run this command.")),
    ([ExcTy.botMissingAnyRole],
      fun e => ErrOutput.one ("I need to have one of the " ++ e.roles ++ " roles for you to be able to run this command.")),
    ([ExcTy.missingRole],
      fun e => ErrOutput.one ("You need to have the `" ++ e.roles ++ "` role to be able to run this command.")),
    ([ExcTy.botMissingRole],
      fun e => ErrOutput.one ("I need to have the `" ++ e.roles ++ "` role for you to be able to run this command.")),
    ([ExcTy.missingPermissions],
      fun e => ErrOutput.one ("You need the `" ++ e.roles ++ "` permission to run this command.")),
    ([ExcTy.botMissingPermissions],
      fun e => ErrOutput.one ("I need the `" ++ e.roles ++ "` permission for me to be able to run this command.")),
    ([ExcTy.noPrivateMessage],
      fun _ => ErrOutput.one "This command can't be run in DMs."),
    ([ExcTy.privateMessageOnly],
      fun _ => ErrOutput.one "This command can only be run in DMs."),
    ([ExcTy.notOwner],
      fun _ => ErrOutput.one "You need to be registered as an owner to run this command."),
    ([ExcTy.badArgument, ExcTy.badUnionArgument],
      fun e => ErrOutput.one e.text),
    ([ExcTy.tooManyArguments],
      fun _ => ErrOutput.one "You gave too many arguments to this command."),
    ([ExcTy.notFound],
      fun _ => ErrOutput.noOutput),
    ([ExcTy.forbidden],
      fun _ => ErrOutput.two "Discord is saying I'm unable to perform that action."
        "Discord is saying I'm unable to perform that action - I probably don't have permission to talk in that channel."),
    ([ExcTy.httpException, ExcTy.clientOSError],
      fun e => ErrOutput.one ("Discord messed up there somewhere - do you mind trying again? I received a " ++ e.status ++ " error.")) ]

/-- The `for error_types, function in self.COMMAND_ERROR_RESPONSES` loop
over an arbitrary table: the first entry whose class tuple matches the
error sets `output` and breaks; if none matches, `output` stays `None`
(represented as `Option.none`). -/
def dispatchOn (tbl : List (List ExcTy × (Err → ErrOutput))) (e : Err) :
    Option ErrOutput :=
  match tbl with
  | [] => none
  | (tys, f) :: rest =>
      if isInstanceAny e.ty tys then some (f e) else dispatchOn rest e

/-- The dispatch loop over the handler's own table. -/
def dispatch (e : Err) : Option ErrOutput :=
  dispatchOn COMMAND_ERROR_RESPONSES e

/-- How `ctx.send` behaves for this context: succeeds, raises
`discord.Forbidden`, or raises `discord.NotFound`. -/
inductive SendOutcome where
  | ok
  | forbidden
  | notFoundErr
  deriving DecidableEq, Repr

/-- The pieces of `ctx` / `self.bot` the handler reads. -/
structure HandlerCtx where
  authorId : Nat
  originalAuthorId : Option Nat      -- pre-existing ctx.original_author_id
  ctxSendOutcome : SendOutcome       -- behaviour of ctx.send
  authorSendOk : Bool                -- whether ctx.author.send succeeds
  ownerIds : List Nat                -- self.bot.owner_ids
  dmUncaughtErrors : Bool            -- self.bot.config['dm_uncaught_errors']
  owners : List Nat                  -- self.bot.config['owners']
  eventWebhookUrl : Option String    -- self.bot.config['event_webhook_url']
  deriving DecidableEq, Repr

/-- Observable effects of one `on_command_error` invocation, in order. -/
inductive HEffect where
  | setOriginalAuthorId (v : Nat)    -- setattr(ctx, "original_author_id", ...)
  | reinvoke                         -- ctx.reinvoke()
  | ctxSend (s : String)             -- ctx.send(...)
  | authorSend (s : String)          -- ctx.author.send(...)
  | ownerDM (oid : Nat)              -- owner.send(error_text, file=...)
  | webhookSend                      -- webhook.send(...)
  deriving DecidableEq, Repr

/-- What escapes the handler: nothing, the original command error
re-raised, or a Python-level error raised by the handler itself. -/
inductive HandlerExc where
  | cmdErr (t : ExcTy)
  | pyErr (e : PyExc)
  deriving DecidableEq, Repr

/-- `ErrorHandler.send_to_ctx_or_author(ctx, text, author_text=None)`:
try `ctx.send(text)`; on `Forbidden`, try
`ctx.author.send(author_text or text)` and swallow a second
`Forbidden`; on `NotFound`, stay silent. -/
def send_to_ctx_or_author (ctx : HandlerCtx) (text : String)
    (author_text : Option String) : List HEffect :=
  match ctx.ctxSendOutcome with
  | SendOutcome.ok => [HEffect.ctxSend text]
  | SendOutcome.forbidden =>
      if ctx.authorSendOk then [HEffect.authorSend (author_text.getD text)] else []
  | SendOutcome.notFoundErr => []

/-- The `await ctx.send(f'```py\x7berror\x7d```')` for unmatched errors,
with its `except (discord.Forbidden, discord.NotFound): pass`. -/
def sendRawError (ctx : HandlerCtx) (e : Err) : List HEffect :=
  match ctx.ctxSendOutcome with
  | SendOutcome.ok => [HEffect.ctxSend ("```py\n" ++ e.text ++ "```")]
  | _ => []

/-- The owner-DM / webhook escalation block for unmatched errors. -/
def escalationFx (ctx : HandlerCtx) : List HEffect :=
  (if ctx.dmUncaughtErrors then ctx.owners.map HEffect.ownerDM else [])
    ++ (if ctx.eventWebhookUrl.isSome then [HEffect.webhookSend] else [])

/-- The classes in the `ignored_errors` tuple. -/
def ignoredErrors : List ExcTy :=
  [ExcTy.commandNotFound, ExcTy.invokedMetaCommand]

/-- The classes in the `owner_reinvoke_errors` tuple. -/
def ownerReinvokeErrors : List ExcTy :=
  [ExcTy.missingRole, ExcTy.missingAnyRole, ExcTy.missingPermissions,
   ExcTy.commandOnCooldown, ExcTy.disabledCommand]

/-- The `try: _, _ = output except TypeError: output = (output,)` probe
followed by `send_to_ctx_or_author(ctx, *output)`, for a truthy
`output`.  A 2-tuple unpacks into its components.  A *string* is
iterable, so unpacking it raises no `TypeError`: a string of length 2
unpacks into its two characters (and `*output` then passes them as the
two arguments), while any other length raises `ValueError`, which the
`except TypeError` clause does not catch and which therefore escapes
the handler. -/
def unpackAndSend (ctx : HandlerCtx) (o : ErrOutput) :
    List HEffect × Option HandlerExc :=
  match o with
  | ErrOutput.two s t => (send_to_ctx_or_author ctx s (some t), none)
  | ErrOutput.one s =>
      if s.length = 2 then
        (send_to_ctx_or_author ctx (String.mk [s.get 0])
          (some (String.mk [s.get ⟨1⟩])), none)
      else ([], some (HandlerExc.pyErr PyExc.valueError))
  | ErrOutput.noOutput => ([], none)   -- unreachable: noOutput is falsy

/-- `ErrorHandler.on_command_error(ctx, error)`: the full handler.
Returns the effects in order and what (if anything) escapes. -/
def on_command_error (ctx : HandlerCtx) (error : Err) :
    List HEffect × Option HandlerExc :=
  if isInstanceAny error.ty ignoredErrors then ([], none)
  else
    let oid := ctx.originalAuthorId.getD ctx.authorId
    let setFx := [HEffect.setOriginalAuthorId oid]
    if oid ∈ ctx.ownerIds && isInstanceAny error.ty ownerReinvokeErrors then
      (setFx ++ [HEffect.reinvoke], none)
    else
      match dispatch error with
      | some output =>
          if errOutputTruthy output then
            let sent := unpackAndSend ctx output
            (setFx ++ sent.1, sent.2)
          else
            (setFx ++ sendRawError ctx error ++ escalationFx ctx,
              some (HandlerExc.cmdErr error.ty))
      | none =>
          (setFx ++ sendRawError ctx error ++ escalationFx ctx,
            some (HandlerExc.cmdErr error.ty))

/-! ## Concrete instances used by the theorems -/

/-- A paginator constructed over a synchronous generator yielding the
batches `[1, 2]` then `[3]`. -/
def pagSyncGen : PaginatorState Nat :=
  { data := DataSource.syncGen [[1, 2], [3]], per_page := 10,
    current_page := none, page_cache := [], max_pages := MaxPages.unknown }

/-- A paginator constructed over an asynchronous generator yielding the
batches `[1, 2]` then `[3]`. -/
def pagAsyncGen : PaginatorState Nat :=
  { data := DataSource.asyncGen [[1, 2], [3]], per_page := 10,
    current_page := none, page_cache := [], max_pages := MaxPages.unknown }

/-- A paginator constructed over an already-exhausted synchronous
generator (no batches left: its first pull would signal end-of-data). -/
def pagSyncExhausted : PaginatorState Nat :=
  { data := DataSource.syncGen [], per_page := 10,
    current_page := none, page_cache := [], max_pages := MaxPages.unknown }

/-- The sequence `[1, ..., 25]`. -/
def items25 : List Nat := (List.range 25).map (· + 1)

/-- `Paginator([1..25], per_page=10)`: three pages. -/
def pag25 : PaginatorState Nat :=
  { data := DataSource.sequential items25, per_page := 10,
    current_page := none, page_cache := [], max_pages := MaxPages.num 3 }

/-- `pag25` after a successful `get_page(0)` populated the cache. -/
def pag25cached : PaginatorState Nat :=
  { pag25 with page_cache := [(0, [1, 2, 3, 4, 5, 6, 7, 8, 9, 10])] }

/-- `Paginator([1, 2, 3], per_page=2)`: two pages. -/
def pag3 : PaginatorState Nat :=
  { data := DataSource.sequential [1, 2, 3], per_page := 2,
    current_page := none, page_cache := [], max_pages := MaxPages.num 2 }

/-- A formatter rendering the number of items on the page as an embed. -/
def fmtCount : PaginatorState Nat → List Nat → FmtOut :=
  fun _ items => FmtOut.embed items.length

/-- A `discord.NotFound` error value. -/
def errNotFound : Err :=
  { ty := ExcTy.notFound, text := "404 Not Found", param := "",
    retryAfter := "", roles := "", status := "404" }

/-- A context whose bot escalates: `dm_uncaught_errors` on, owners 1 and
2, a webhook configured; `ctx.send` succeeds. -/
def ctxEscalating : HandlerCtx :=
  { authorId := 5, originalAuthorId := none,
    ctxSendOutcome := SendOutcome.ok, authorSendOk := true,
    ownerIds := [], dmUncaughtErrors := true, owners := [1, 2],
    eventWebhookUrl := some "https://example.invalid/webhook" }

/-! ## Claims -/

/-- C1: the claim says each uncached `get_page(n)` over a `Generated`
source pulls exactly one item-batch, for both sync and async
generators.  The code instead dispatches each generator kind to the
*other* kind's protocol: a sync generator is sent `__anext__`
(`AttributeError`), an async generator is sent `next`
(`TypeError`); zero batches are pulled and the call raises, for every
`n`.  This theorem evaluates the code at those failing inputs. -/
theorem paginator_generator_pull_raises :
    mkPaginator (DataSource.syncGen [[1, 2], [3]]) 10 = Except.ok pagSyncGen
    ∧ get_page pagSyncGen 0 = (Except.error PyExc.attributeError, pagSyncGen, 0)
    ∧ get_page pagSyncGen 7 = (Except.error PyExc.attributeError, pagSyncGen, 0)
    ∧ mkPaginator (DataSource.asyncGen [[1, 2], [3]]) 10 = Except.ok pagAsyncGen
    ∧ get_page pagAsyncGen 0 = (Except.error PyExc.typeError, pagAsyncGen, 0)
    ∧ get_page pagAsyncGen 7 = (Except.error PyExc.typeError, pagAsyncGen, 0) := by
  refine ⟨rfl, rfl, rfl, rfl, rfl, rfl⟩

/-- C2: the claim says that when the generator signals end-of-data
during `get_page(n)`, the call sets `max_pages = n` and returns a value
instead of raising.  Evaluating the code on a paginator whose generator
is already exhausted: the call raises `AttributeError` before the
exhaustion signal can even occur (wrong iteration protocol), and
`max_pages` remains the sentinel `"?"` — it is never finalised.  (Had
the `except (StopIteration, StopAsyncIteration)` handler been
reachable, its `return v` would itself raise `UnboundLocalError`, since
the local `v` is unassigned when the pull raises.) -/
theorem paginator_generator_exhaustion_unreachable :
    mkPaginator (DataSource.syncGen ([] : List (List Nat))) 10
      = Except.ok pagSyncExhausted
    ∧ get_page pagSyncExhausted 0
      = (Except.error PyExc.attributeError, pagSyncExhausted, 0)
    ∧ (get_page pagSyncExhausted 0).2.1.max_pages = MaxPages.unknown := by
  refine ⟨rfl, rfl, rfl⟩

/-- C4: the claim says a second render of an identical payload issues no
second edit.  Line 95 of the source reads `payload = last_payload`
(overwriting the local instead of updating `last_payload`), so
`last_payload` stays `None` and *every* render edits.  Concretely:
`Paginator([1,2,3], per_page=2)` with a first-page reaction re-renders
page 0 with the identical payload, and the trace contains the edit
twice. -/
theorem paginator_duplicate_render_edits_again :
    startRun pag3 fmtCount [Event.reaction Emoji.firstPage, Event.timeout] false
      = ([Effect.sendPlaceholder,
          Effect.addReaction Emoji.firstPage, Effect.addReaction Emoji.prevPage,
          Effect.addReaction Emoji.stop, Effect.addReaction Emoji.nextPage,
          Effect.addReaction Emoji.lastPage,
          Effect.editMessage { content := none, embed := some 2 },
          Effect.navClamped 0 (MaxPages.num 2),
          Effect.editMessage { content := none, embed := some 2 },
          Effect.clearReactions], none)
    ∧ (startRun pag3 fmtCount [Event.reaction Emoji.firstPage, Event.timeout]
        false).1.count
        (Effect.editMessage { content := none, embed := some 2 }) = 2 := by
  refine ⟨rfl, rfl⟩

/-- C7: the claim says a failing `clear_reactions` at session end is
caught and silently dropped.  The session does attempt the clear
(`clearReactions` is in the trace), but on failure the handler's
exception expression `discord.Exception` — an attribute the `discord`
module does not define — raises `AttributeError`, which propagates out
of `start` instead of being swallowed.  (With a succeeding clear, the
run ends normally.) -/
theorem paginator_clear_reactions_failure_propagates :
    startRun pag3 fmtCount [Event.reaction Emoji.stop] true
      = ([Effect.sendPlaceholder,
          Effect.addReaction Emoji.firstPage, Effect.addReaction Emoji.prevPage,
          Effect.addReaction Emoji.stop, Effect.addReaction Emoji.nextPage,
          Effect.addReaction Emoji.lastPage,
          Effect.editMessage { content := none, embed := some 2 },
          Effect.clearReactions], some PyExc.attributeError)
    ∧ startRun pag3 fmtCount [Event.reaction Emoji.stop] false
      = ([Effect.sendPlaceholder,
          Effect.addReaction Emoji.firstPage, Effect.addReaction Emoji.prevPage,
          Effect.addReaction Emoji.stop, Effect.addReaction Emoji.nextPage,
          Effect.addReaction Emoji.lastPage,
          Effect.editMessage { content := none, embed := some 2 },
          Effect.clearReactions], none) := by
  refine ⟨rfl, rfl⟩

/-- C5 (counterexample): the claim says any out-of-range page index
yields an empty list.  For `Paginator([1..25], per_page=10)`
(`max_pages = 3`), the out-of-range index `-2` slices
`data[-20:-10]`, which Python wraps to `data[5:15]` — ten items, not
the empty list. -/
theorem get_page_negative_page_nonempty :
    mkPaginator (DataSource.sequential items25) 10 = Except.ok pag25
    ∧ pag25.max_pages = MaxPages.num 3
    ∧ (get_page pag25 (-2)).1
      = Except.ok [6, 7, 8, 9, 10, 11, 12, 13, 14, 15]
    ∧ ([6, 7, 8, 9, 10, 11, 12, 13, 14, 15] : List Nat) ≠ [] := by
  refine ⟨rfl, rfl, rfl, by decide⟩

/-- C6 (counterexample): the claim says a matching formatter returning
`None` suppresses the error (no channel message, no owner/webhook
escalation).  For a `discord.NotFound` error the first matching entry's
formatter returns `None`, but `if output:` treats `None` as *unmatched*:
the handler sends the raw error to the channel, DMs both configured
owners, fires the webhook, and re-raises the error. -/
theorem error_none_formatter_not_suppressed :
    dispatch errNotFound = some ErrOutput.noOutput
    ∧ on_command_error ctxEscalating errNotFound
      = ([HEffect.setOriginalAuthorId 5,
          HEffect.ctxSend "```py\n404 Not Found```",
          HEffect.ownerDM 1, HEffect.ownerDM 2, HEffect.webhookSend],
         some (HandlerExc.cmdErr ExcTy.notFound)) := by
  refine ⟨rfl, rfl⟩

/-- C8: a paginator over an empty finite sequence has `max_pages = 0`,
and `start` sends only the "no data" notice and terminates: no
placeholder message, no reactions, no render, no further transitions,
for any formatter, any event stream and any message-sink behaviour. -/
theorem paginator_empty_sequence_no_data (P : Int)
    (fmt : PaginatorState Nat → List Nat → FmtOut) (events : List Event)
    (cf : Bool) (st : PaginatorState Nat) (hP : 1 ≤ P)
    (hmk : mkPaginator (DataSource.sequential ([] : List Nat)) P = Except.ok st) :
    st.max_pages = MaxPages.num 0
    ∧ startRun st fmt events cf = ([Effect.sendNoData], none) := by
  have hP0 : ¬ (P = 0) := by omega
  unfold mkPaginator at hmk
  simp only [List.length_nil, Nat.cast_zero, Int.zero_fdiv, Int.zero_fmod,
    hP0, if_false, ne_eq, not_true_eq_false, if_neg, Except.ok.injEq] at hmk
  subst hmk
  constructor
  · rfl
  · rfl

/-- C8 witness at `P = 10`. -/
theorem paginator_empty_sequence_no_data_witness :
    (1 : Int) ≤ 10
    ∧ ({ data := DataSource.sequential ([] : List Nat), per_page := 10,
          current_page := none, page_cache := [],
          max_pages := MaxPages.num 0 } : PaginatorState Nat).max_pages
        = MaxPages.num 0
    ∧ startRun
        ({ data := DataSource.sequential ([] : List Nat), per_page := 10,
           current_page := none, page_cache := [],
           max_pages := MaxPages.num 0 } : PaginatorState Nat)
        fmtCount [Event.reaction Emoji.nextPage] false
        = ([Effect.sendNoData], none) := by
  refine ⟨by decide, ?_, ?_⟩
  · exact (paginator_empty_sequence_no_data 10 fmtCount
      [Event.reaction Emoji.nextPage] false _ (by decide) rfl).1
  · exact (paginator_empty_sequence_no_data 10 fmtCount
      [Event.reaction Emoji.nextPage] false _ (by decide) rfl).2

/-- C9: once `get_page` has returned successfully for page `n`, calling
`get_page n` again on the resulting state returns the identical cached
list, leaves the state unchanged, and takes zero pulls/slices from the
underlying source. -/
theorem get_page_cached_idempotent {α : Type} (st st' : PaginatorState α)
    (n : Int) (v : List α) (k : Nat)
    (h : get_page st n = (Except.ok v, st', k)) :
    get_page st' n = (Except.ok v, st', 0) := by
  unfold get_page at h ⊢
  cases hc : cacheGet st.page_cache n with
  | some w =>
      simp only [hc, Prod.mk.injEq, Except.ok.injEq] at h
      obtain ⟨hv, hst, -⟩ := h
      subst hv; subst hst
      simp [hc]
  | none =>
      cases hd : st.data with
      | asyncGen b => simp [hc, hd] at h
      | syncGen b => simp [hc, hd] at h
      | sequential items =>
          simp only [hc, hd, Prod.mk.injEq, Except.ok.injEq] at h
          obtain ⟨hv, hst, -⟩ := h
          subst hv
          subst hst
          simp [cacheGet]

/-- C9 witness: `Paginator([1..25], per_page=10)`, page 0 — the first
call slices and caches; the second call returns the identical list with
zero source invocations and an unchanged state. -/
theorem get_page_cached_idempotent_witness :
    get_page pag25 0
      = (Except.ok [1, 2, 3, 4, 5, 6, 7, 8, 9, 10], pag25cached, 1)
    ∧ get_page pag25cached 0
      = (Except.ok [1, 2, 3, 4, 5, 6, 7, 8, 9, 10], pag25cached, 0) := by
  refine ⟨rfl, ?_⟩
  exact get_page_cached_idempotent pag25 pag25cached 0
    [1, 2, 3, 4, 5, 6, 7, 8, 9, 10] 1 rfl

/-- C10: for every error whose class is `CommandNotFound` or
`InvokedMetaCommand`, the handler returns immediately: no effect at all
(no channel/author message, no reinvoke, no `original_author_id`
assignment, no owner DM, no webhook) and nothing raised. -/
theorem ignored_errors_return_immediately (ctx : HandlerCtx) (error : Err)
    (h : error.ty = ExcTy.commandNotFound
      ∨ error.ty = ExcTy.invokedMetaCommand) :
    on_command_error ctx error = ([], none) := by
  unfold on_command_error
  rcases h with h | h <;>
    simp [isInstanceAny, ignoredErrors, isSubclass, h]

/-- C10 witness: a concrete `CommandNotFound` error against the
escalating context produces no effects. -/
theorem ignored_errors_return_immediately_witness :
    ({ errNotFound with ty := ExcTy.commandNotFound } : Err).ty
        = ExcTy.commandNotFound
    ∧ on_command_error ctxEscalating
        { errNotFound with ty := ExcTy.commandNotFound } = ([], none) := by
  refine ⟨rfl, ?_⟩
  exact ignored_errors_return_immediately ctxEscalating
    { errNotFound with ty := ExcTy.commandNotFound } (Or.inl rfl)

/-- For non-negative bounds, a Python slice is plain take-then-drop. -/
theorem pySlice_nonneg {α : Type} (l : List α) (a b : Int)
    (ha : 0 ≤ a) (hb : 0 ≤ b) :
    pySlice l a b = (l.take b.toNat).drop a.toNat := by
  unfold pySlice pyIndex
  have ha' : ¬ (a < 0) := by omega
  have hb' : ¬ (b < 0) := by omega
  simp only [ha', hb', if_false]
  have htake : l.take (min b.toNat l.length) = l.take b.toNat := by
    rw [List.take_eq_take]; omega
  rw [htake]
  rcases le_or_lt a.toNat l.length with h | h
  · have : min a.toNat l.length = a.toNat := by omega
    rw [this]
  · have hmin : min a.toNat l.length = l.length := by omega
    rw [hmin]
    have h1 : (l.take b.toNat).length ≤ l.length := by
      rw [List.length_take]; omega
    rw [List.drop_eq_nil_of_le h1, List.drop_eq_nil_of_le (by omega)]

/-- C5 (amended): for a finite sequence of length `L` and `per_page = P ≥ 1`,
construction sets `max_pages` to the unique `m` with
`(m-1)*P < L ≤ m*P` (that is, `ceil(L/P)`); every `n ≥ 0` returns
exactly the slice `[n*P, min((n+1)*P, L))`; every `n ≥ max_pages`
returns the empty list; and no call raises.  (The amendment restricts
the empty-result guarantee to indices at or past `max_pages`: a
*negative* out-of-range index follows Python slice wrap-around and can
return a non-empty list, as the counterexample shows.) -/
theorem paginator_sequential_pages_correct (items : List Nat) (P : Int)
    (st : PaginatorState Nat) (hP : 1 ≤ P)
    (hmk : mkPaginator (DataSource.sequential items) P = Except.ok st) :
    (∃ m : Int, st.max_pages = MaxPages.num m
      ∧ (m - 1) * P < (items.length : Int)
      ∧ (items.length : Int) ≤ m * P)
    ∧ (∀ n : Int, 0 ≤ n →
        (get_page st n).1
          = Except.ok ((items.take ((n + 1) * P).toNat).drop (n * P).toNat))
    ∧ (∀ n m : Int, st.max_pages = MaxPages.num m → m ≤ n →
        (get_page st n).1 = Except.ok ([] : List Nat))
    ∧ (∀ n : Int, ∃ w, (get_page st n).1 = Except.ok w) := by
  have hP0 : ¬ (P = 0) := by omega
  unfold mkPaginator at hmk
  simp only [hP0, if_false, Except.ok.injEq] at hmk
  subst hmk
  set L : Int := (items.length : Int) with hL
  have hL0 : 0 ≤ L := by positivity
  have hdm : P * L.fdiv P + L.fmod P = L := Int.fdiv_add_fmod L P
  have hr0 : 0 ≤ L.fmod P := Int.fmod_nonneg hL0 (by omega)
  have hrP : L.fmod P < P := Int.fmod_lt_of_pos L (by omega)
  set q : Int := L.fdiv P with hq
  set r : Int := L.fmod P with hrdef
  have hget : ∀ n : Int, (get_page
      ({ data := DataSource.sequential items, per_page := P,
         current_page := none, page_cache := [],
         max_pages := MaxPages.num (if r ≠ 0 then q + 1 else q) } :
        PaginatorState Nat) n).1
      = Except.ok (pySlice items (n * P) ((n + 1) * P)) := by
    intro n
    rfl
  refine ⟨?_, ?_, ?_, ?_⟩
  · refine ⟨if r ≠ 0 then q + 1 else q, rfl, ?_, ?_⟩
    · by_cases hr : r = 0
      · simp only [hr, ne_eq, not_true_eq_false, if_false]
        have : (q - 1) * P = P * q - P := by ring
        rw [this]
        omega
      · simp only [ne_eq, hr, not_false_eq_true, if_true]
        have : (q + 1 - 1) * P = P * q := by ring
        rw [this]
        omega
    · by_cases hr : r = 0
      · simp only [hr, ne_eq, not_true_eq_false, if_false]
        have : q * P = P * q := by ring
        omega
      · simp only [ne_eq, hr, not_false_eq_true, if_true]
        have : (q + 1) * P = P * q + P := by ring
        omega
  · intro n hn
    rw [hget n]
    rw [pySlice_nonneg items _ _ (by positivity) (by positivity)]
  · intro n m hm hnm
    have hmval : m = (if r ≠ 0 then q + 1 else q) := by
      simpa using hm.symm
    have hLm : L ≤ m * P := by
      subst hmval
      by_cases hr : r = 0
      · simp only [hr, ne_eq, not_true_eq_false, if_false]
        have : q * P = P * q := by ring
        omega
      · simp only [ne_eq, hr, not_false_eq_true, if_true]
        have : (q + 1) * P = P * q + P := by ring
        omega
    have hm0 : 0 ≤ m := by
      nlinarith
    have hn0 : 0 ≤ n := le_trans hm0 hnm
    have hLn : L ≤ n * P := by
      calc L ≤ m * P := hLm
        _ ≤ n * P := by
          exact mul_le_mul_of_nonneg_right hnm (by omega)
    rw [hget n]
    rw [pySlice_nonneg items _ _ (by positivity) (by positivity)]
    have hlen : items.length ≤ (n * P).toNat := by
      have h2 := Int.toNat_le_toNat hLn
      rwa [hL, Int.toNat_natCast] at h2
    have h1 : (items.take ((n + 1) * P).toNat).length ≤ (n * P).toNat := by
      rw [List.length_take]; omega
    rw [List.drop_eq_nil_of_le h1]
  · intro n
    exact ⟨_, hget n⟩

/-- C5 witness: `Paginator([1..25], per_page=10)` — `max_pages = 3`
satisfies the ceiling bounds, page 1 is the exact slice, and page 3 is
empty. -/
theorem paginator_sequential_pages_correct_witness :
    (1 : Int) ≤ 10
    ∧ (∃ m : Int, pag25.max_pages = MaxPages.num m
        ∧ (m - 1) * 10 < (items25.length : Int)
        ∧ (items25.length : Int) ≤ m * 10)
    ∧ (get_page pag25 1).1
      = Except.ok ((items25.take (((1 + 1) * 10 : Int)).toNat).drop
          ((1 * 10 : Int)).toNat)
    ∧ (get_page pag25 3).1 = Except.ok ([] : List Nat) := by
  refine ⟨by decide, ?_, ?_, ?_⟩
  · exact (paginator_sequential_pages_correct items25 10 pag25 (by decide) rfl).1
  · exact (paginator_sequential_pages_correct items25 10 pag25 (by decide) rfl).2.1
      1 (by decide)
  · exact (paginator_sequential_pages_correct items25 10 pag25 (by decide) rfl).2.2.1
      3 3 rfl (by decide)

/-- The dispatch loop over any table returns the output of the *first*
entry whose class tuple matches the error (`List.find?` order). -/
theorem dispatchOn_eq_find (tbl : List (List ExcTy × (Err → ErrOutput)))
    (e : Err) :
    dispatchOn tbl e
      = (tbl.find? (fun p => isInstanceAny e.ty p.1)).map (fun p => p.2 e) := by
  induction tbl with
  | nil => rfl
  | cons hd tl ih =>
      obtain ⟨tys, f⟩ := hd
      unfold dispatchOn
      rw [List.find?]
      cases h : isInstanceAny e.ty tys with
      | true => simp [h]
      | false => simp [h, ih]

/-- The only entry of `COMMAND_ERROR_RESPONSES` whose formatter returns
`None` is the `discord.NotFound` one, and only a `NotFound` error
reaches it. -/
theorem dispatch_noOutput_ty (e : Err)
    (h : dispatch e = some ErrOutput.noOutput) : e.ty = ExcTy.notFound := by
  rcases e with ⟨ty, text, param, retryAfter, roles, status⟩
  cases ty <;>
    simp [dispatch, dispatchOn, COMMAND_ERROR_RESPONSES, isInstanceAny,
      isSubclass] at h <;> rfl

/-- C6 (amended): in the error-dispatch table the first pair whose
exception type matches wins; but a matching formatter that returns
`None` does *not* suppress the error — `if output:` treats it exactly
like an unmatched error, so the handler sends the raw error text to the
channel, escalates to owners/webhook per configuration, and re-raises
it. -/
theorem error_dispatch_first_match_none_falls_through :
    (∀ (tbl : List (List ExcTy × (Err → ErrOutput))) (e : Err),
        dispatchOn tbl e
          = (tbl.find? (fun p => isInstanceAny e.ty p.1)).map (fun p => p.2 e))
    ∧ (∀ (ctx : HandlerCtx) (e : Err),
        dispatch e = some ErrOutput.noOutput →
        on_command_error ctx e
          = ([HEffect.setOriginalAuthorId (ctx.originalAuthorId.getD ctx.authorId)]
              ++ sendRawError ctx e ++ escalationFx ctx,
             some (HandlerExc.cmdErr e.ty))) := by
  constructor
  · exact dispatchOn_eq_find
  · intro ctx e h
    have hty := dispatch_noOutput_ty e h
    unfold on_command_error
    rw [hty, h]
    simp [isInstanceAny, ignoredErrors, ownerReinvokeErrors, isSubclass,
      errOutputTruthy]

/-- C6 amended witness: the `NotFound` error against the escalating
context — first-match dispatch and the fall-through path, instantiated
concretely. -/
theorem error_dispatch_first_match_none_falls_through_witness :
    dispatchOn COMMAND_ERROR_RESPONSES errNotFound
      = ((COMMAND_ERROR_RESPONSES.find?
          (fun p => isInstanceAny errNotFound.ty p.1)).map
          (fun p => p.2 errNotFound))
    ∧ on_command_error ctxEscalating errNotFound
      = ([HEffect.setOriginalAuthorId
            (ctxEscalating.originalAuthorId.getD ctxEscalating.authorId)]
          ++ sendRawError ctxEscalating errNotFound
          ++ escalationFx ctxEscalating,
         some (HandlerExc.cmdErr errNotFound.ty)) := by
  exact ⟨error_dispatch_first_match_none_falls_through.1
      COMMAND_ERROR_RESPONSES errNotFound,
    error_dispatch_first_match_none_falls_through.2 ctxEscalating errNotFound rfl⟩

/-- `get_page` never changes `max_pages` (the source line that would,
inside the exhaustion handler, is unreachable). -/
theorem get_page_max_pages {α : Type} (st : PaginatorState α) (n : Int) :
    ((get_page st n).2.1).max_pages = st.max_pages := by
  unfold get_page
  cases hc : cacheGet st.page_cache n with
  | some v => rfl
  | none =>
      cases hd : st.data with
      | sequential items => rfl
      | syncGen b => rfl
      | asyncGen b => rfl

/-- The render phase keeps `max_pages` and emits no `navClamped`
instrumentation. -/
theorem renderEdit_inv {α : Type} (fmt : PaginatorState α → List α → FmtOut)
    (st : PaginatorState α) (lastP : Option Payload) (fx : List Effect)
    (st' : PaginatorState α)
    (h : renderEdit fmt st lastP = Except.ok (fx, st')) :
    st'.max_pages = st.max_pages
    ∧ ∀ j mp, Effect.navClamped j mp ∉ fx := by
  unfold renderEdit at h
  rcases hgp : get_page st (st.current_page.getD 0) with ⟨res, st2, k⟩
  rw [hgp] at h
  cases res with
  | error e => simp at h
  | ok items =>
      simp only [Except.ok.injEq, Prod.mk.injEq] at h
      obtain ⟨hfx, hst⟩ := h
      subst hst
      constructor
      · have := get_page_max_pages st (st.current_page.getD 0)
        rw [hgp] at this
        exact this
      · intro j mp
        rw [← hfx]
        split <;> simp

/-- When the boundary clamp returns normally, `max_pages` was an integer
`m`, and if `1 ≤ m` the clamped page lies in `[0, m)`. -/
theorem clampCand_ok_bounds (cand : Cand) (mp : MaxPages) (j : Int)
    (h : clampCand cand mp = Except.ok j) :
    ∃ m, mp = MaxPages.num m ∧ (1 ≤ m → 0 ≤ j ∧ j < m) := by
  cases cand with
  | stopNav => simp [clampCand] at h
  | qmark => cases mp <;> simp [clampCand] at h
  | page c =>
      cases mp with
      | unknown => simp [clampCand] at h
      | num m =>
          refine ⟨m, rfl, ?_⟩
          intro hm
          simp only [clampCand, Except.ok.injEq] at h
          subst h
          constructor
          · split
            · omega
            · split <;> omega
          · split
            · omega
            · split <;> omega

/-- Loop invariant: if every integer value of `max_pages` is at least 1,
then every page number the loop stores (each `navClamped` entry) lies in
`[0, max_pages)`. -/
theorem runLoop_navClamped {α : Type}
    (fmt : PaginatorState α → List α → FmtOut) (cf : Bool) :
    ∀ (events : List Event) (st : PaginatorState α) (lastP : Option Payload)
      (j : Int) (mp : MaxPages),
      (∀ m, st.max_pages = MaxPages.num m → 1 ≤ m) →
      Effect.navClamped j mp ∈ (runLoop fmt cf events st lastP).1 →
      ∃ m, mp = MaxPages.num m ∧ 0 ≤ j ∧ j < m := by
  intro events
  induction events with
  | nil =>
      intro st lastP j mp hmax hmem
      rw [runLoop] at hmem
      split at hmem
      · simp at hmem
      · rename_i fx st' hre
        have hnc := (renderEdit_inv fmt st lastP fx st' hre).2 j mp
        split at hmem
        · exact absurd hmem hnc
        · simp only [cleanupFx, List.mem_append] at hmem
          rcases hmem with h | h
          · exact absurd h hnc
          · simp at h
  | cons ev rest ih =>
      intro st lastP j mp hmax hmem
      cases ev with
      | timeout =>
          rw [runLoop] at hmem
          split at hmem
          · simp at hmem
          · rename_i fx st' hre
            have hnc := (renderEdit_inv fmt st lastP fx st' hre).2 j mp
            split at hmem
            · exact absurd hmem hnc
            · simp only [cleanupFx, List.mem_append] at hmem
              rcases hmem with h | h
              · exact absurd h hnc
              · simp at h
      | reaction em =>
          rw [runLoop] at hmem
          split at hmem
          · simp at hmem
          · rename_i fx st' hre
            obtain ⟨hstm, hnc0⟩ := renderEdit_inv fmt st lastP fx st' hre
            have hnc := hnc0 j mp
            split at hmem
            · exact absurd hmem hnc
            · split at hmem
              · -- stop candidate: cleanup
                simp only [cleanupFx, List.mem_append] at hmem
                rcases hmem with h | h
                · exact absurd h hnc
                · simp at h
              · -- non-stop candidate: the clamp
                split at hmem
                · exact absurd hmem hnc
                · rename_i j' hcl
                  rcases List.mem_append.mp hmem with h | h
                  · exact absurd h hnc
                  · rcases List.mem_cons.mp h with h | h
                    · obtain ⟨hj, hmp'⟩ := Effect.navClamped.inj h
                      obtain ⟨m, hm, hb⟩ := clampCand_ok_bounds _ st'.max_pages j' hcl
                      have hm1 : 1 ≤ m := hmax m (by rw [← hstm]; exact hm)
                      subst hj
                      exact ⟨m, by rw [hmp', hm], hb hm1⟩
                    · refine ih _ lastP j mp ?_ h
                      intro m' hm'
                      have : st'.max_pages = MaxPages.num m' := hm'
                      exact hmax m' (by rw [← hstm]; exact this)

/-- C3: in any started session over any constructed paginator
(`per_page ≥ 1`), every reaction-derived candidate that is applied
(recorded as `navClamped`) results in a `current_page` in
`[0, max_pages)`; the stop emoji maps to the `None` candidate; and a
stop reaction ends the session — the remaining events are never
consumed.  Sessions over `Generated` sources are covered by the same
universal statement: they raise `TypeError` at `max_pages > 1` before
any navigation, so they never apply a candidate at all. -/
theorem paginator_nav_clamp_invariant (data : DataSource Nat) (P : Int)
    (st : PaginatorState Nat) (fmt : PaginatorState Nat → List Nat → FmtOut)
    (events : List Event) (cf : Bool)
    (hP : 1 ≤ P) (hmk : mkPaginator data P = Except.ok st) :
    (∀ j mp, Effect.navClamped j mp ∈ (startRun st fmt events cf).1 →
        ∃ m, mp = MaxPages.num m ∧ 0 ≤ j ∧ j < m)
    ∧ (∀ (i : Int) (mp : MaxPages), applyEmoji Emoji.stop i mp = Cand.stopNav)
    ∧ (∀ (st' : PaginatorState Nat) (lastP : Option Payload) (rest : List Event),
        runLoop fmt cf (Event.reaction Emoji.stop :: rest) st' lastP
          = runLoop fmt cf [Event.reaction Emoji.stop] st' lastP) := by
  have hP0 : ¬ (P = 0) := by omega
  have hb0 : ∀ m : Int, st.max_pages = MaxPages.num m → 0 ≤ m := by
    cases data with
    | sequential items =>
        unfold mkPaginator at hmk
        simp only [hP0, if_false, Except.ok.injEq] at hmk
        subst hmk
        intro m hm
        simp only [MaxPages.num.injEq] at hm
        have hq0 : 0 ≤ ((items.length : Int)).fdiv P :=
          Int.fdiv_nonneg (by positivity) (by omega)
        rw [← hm]
        split <;> omega
    | syncGen b =>
        unfold mkPaginator at hmk
        simp only [Except.ok.injEq] at hmk
        subst hmk
        intro m hm
        simp at hm
    | asyncGen b =>
        unfold mkPaginator at hmk
        simp only [Except.ok.injEq] at hmk
        subst hmk
        intro m hm
        simp at hm
  refine ⟨?_, ?_, ?_⟩
  · intro j mp hmem
    unfold startRun at hmem
    cases hm : st.max_pages with
    | unknown =>
        simp only [hm, maxPagesEqInt, maxPagesGtOne] at hmem
        simp at hmem
    | num m =>
        by_cases hm0 : m = 0
        · simp only [hm, hm0, maxPagesEqInt] at hmem
          simp at hmem
        · have hm1 : 1 ≤ m := by
            have := hb0 m hm
            omega
          simp only [hm, maxPagesEqInt, maxPagesGtOne, decide_eq_true_eq,
            hm0, if_false] at hmem
          simp only [List.mem_cons, List.mem_append] at hmem
          rcases hmem with (h | h) | h
          · exact absurd h (by simp)
          · revert h
            split <;> intro h <;> simp at h
          · refine runLoop_navClamped fmt cf events _ none j mp ?_ h
            intro m' hm'
            simp only [MaxPages.num.injEq] at hm'
            omega
  · intro i mp
    rfl
  · intro st' lastP rest
    rfl

/-- C3 witness: `Paginator([1,2,3], per_page=2)`, a next-page reaction
from page 0 — the stored page 1 lies in `[0, 2)`. -/
theorem paginator_nav_clamp_invariant_witness :
    (1 : Int) ≤ 2
    ∧ (∃ m, MaxPages.num 2 = MaxPages.num m ∧ (0 : Int) ≤ 1 ∧ 1 < m) := by
  refine ⟨by decide, ?_⟩
  exact (paginator_nav_clamp_invariant (DataSource.sequential [1, 2, 3]) 2 pag3
      fmtCount [Event.reaction Emoji.nextPage] false (by decide) rfl).1
    1 (MaxPages.num 2) (by decide)
